import Mathlib

/-!
Verification of the PN532 NFC driver (src/pn532/pn532.py) frame protocol
engine: frame encoding and decoding, the device error table, the command
dispatcher, and the card-level operations built on top of it.

Bytes are modelled as natural numbers; Python bitwise idioms on bytes are
translated arithmetically over Nat:
  x & 0xFF            = x % 256
  (~x + 1) & 0xFF     = (256 - x % 256) % 256   (two's complement low byte)
  ~x & 0xFF           = 255 - x % 256           (one's complement low byte)
Python exceptions are modelled as explicit error values; an out-of-range
index access (Python IndexError) is a distinct error value from the
structured RuntimeError parse failures.
-/

namespace PN532

/-! ## Module-level constants (src/pn532/pn532.py lines 6-70) -/

def _PREAMBLE : Nat := 0x00

def _STARTCODE1 : Nat := 0x00

def _STARTCODE2 : Nat := 0xFF

def _POSTAMBLE : Nat := 0x00

def _HOSTTOPN532 : Nat := 0xD4

def _PN532TOHOST : Nat := 0xD5

def _COMMAND_GETFIRMWAREVERSION : Nat := 0x02

def _COMMAND_SAMCONFIGURATION : Nat := 0x14

def _COMMAND_INLISTPASSIVETARGET : Nat := 0x4A

def _COMMAND_INDATAEXCHANGE : Nat := 0x40

def MIFARE_CMD_AUTH_A : Nat := 0x60

def MIFARE_CMD_READ : Nat := 0x30

def MIFARE_CMD_WRITE : Nat := 0xA0

def _MIFARE_ISO14443A : Nat := 0x00

def _ACK : List Nat := [0x00, 0x00, 0xFF, 0x00, 0xFF, 0x00]

/-! ## Frame codec -/

/-- Encoding of a frame, from PN532._write_frame (lines 162-188).
Builds [preamble, start1, start2, len and 0xFF, twos-complement of len,
data bytes, ones-complement of (sum of first three bytes + sum of data),
postamble].  The byte stored at frame[-2] is the Python expression
(~checksum and 0xFF), the one's complement low byte, written here as
255 - checksum % 256. -/
def _write_frame (data : List Nat) : List Nat :=
  let length := data.length
  let checksum := (_PREAMBLE + _STARTCODE1 + _STARTCODE2) + data.sum
  [_PREAMBLE, _STARTCODE1, _STARTCODE2, length % 256, (256 - length % 256) % 256]
    ++ data ++ [255 - checksum % 256, _POSTAMBLE]

/-- Failure modes of PN532._read_frame (lines 190-221).  The four
RuntimeError raises get one constructor each; indexError models a Python
IndexError from an out-of-range subscript (response[offset] on an empty
buffer, or response[offset+1] past the end of the buffer). -/
inductive ReadError where
  | indexError
  | preambleError
  | noDataError
  | lengthChecksumError
  | checksumError
deriving DecidableEq, Repr

/-- The preamble scan of PN532._read_frame (lines 202-209): skip leading
0x00 bytes; raise the preamble RuntimeError if the scan runs off the end
or meets a byte other than 0x00 and 0xFF; on 0xFF return the remainder of
the buffer.  The initial subscript response[0] on an empty buffer is a
Python IndexError. -/
def scanPreamble : List Nat → Except ReadError (List Nat)
  | [] => .error .indexError
  | b :: rest =>
    if b = 0x00 then
      match rest with
      | [] => .error .preambleError
      | _ :: _ => scanPreamble rest
    else if b = 0xFF then .ok rest
    else .error .preambleError

/-- The tail of PN532._read_frame after the 0xFF marker (lines 210-221):
length byte, length checksum byte, payload checksum over the (len+1)
bytes after the length field, and the payload slice.  The subscript
response[offset+1] is an IndexError when exactly one byte follows the
marker; the checksum slice and the result slice are Python slices and
clamp to the end of the buffer. -/
def parseAfterMarker : List Nat → Except ReadError (List Nat)
  | [] => .error .noDataError
  | frame_len :: rest =>
    match rest with
    | [] => .error .indexError
    | lcs :: rest2 =>
      if (frame_len + lcs) % 256 ≠ 0 then .error .lengthChecksumError
      else
        let checksum := (rest2.take (frame_len + 1)).sum % 256
        if checksum ≠ 0 then .error .checksumError
        else .ok (rest2.take frame_len)

/-- Decoding of a raw buffer, PN532._read_frame (lines 190-221).  The
length argument of the Python method only sizes the transport read
(length+7 bytes); the parse itself is a function of the returned buffer,
which is what this definition takes. -/
def _read_frame (response : List Nat) : Except ReadError (List Nat) :=
  match scanPreamble response with
  | .error e => .error e
  | .ok rest => parseAfterMarker rest

/-! ## Device error table (lines 72-108) -/

/-- PN532_ERRORS dict literal (lines 72-101), in source order. -/
def PN532_ERRORS : List (Nat × String) := [
  (0x01, "PN532 ERROR TIMEOUT"),
  (0x02, "PN532 ERROR CRC"),
  (0x03, "PN532 ERROR PARITY"),
  (0x04, "PN532 ERROR COLLISION_BITCOUNT"),
  (0x05, "PN532 ERROR MIFARE_FRAMING"),
  (0x06, "PN532 ERROR COLLISION_BITCOLLISION"),
  (0x07, "PN532 ERROR NOBUFS"),
  (0x09, "PN532 ERROR RFNOBUFS"),
  (0x0a, "PN532 ERROR ACTIVE_TOOSLOW"),
  (0x0b, "PN532 ERROR RFPROTO"),
  (0x0d, "PN532 ERROR TOOHOT"),
  (0x0e, "PN532 ERROR INTERNAL_NOBUFS"),
  (0x10, "PN532 ERROR INVAL"),
  (0x12, "PN532 ERROR DEP_INVALID_COMMAND"),
  (0x13, "PN532 ERROR DEP_BADDATA"),
  (0x14, "PN532 ERROR MIFARE_AUTH"),
  (0x18, "PN532 ERROR NOSECURE"),
  (0x19, "PN532 ERROR I2CBUSY"),
  (0x23, "PN532 ERROR UIDCHECKSUM"),
  (0x25, "PN532 ERROR DEPSTATE"),
  (0x26, "PN532 ERROR HCIINVAL"),
  (0x27, "PN532 ERROR CONTEXT"),
  (0x29, "PN532 ERROR RELEASED"),
  (0x2a, "PN532 ERROR CARDSWAPPED"),
  (0x2b, "PN532 ERROR NOCARD"),
  (0x2c, "PN532 ERROR MISMATCH"),
  (0x2d, "PN532 ERROR OVERCURRENT"),
  (0x2e, "PN532 ERROR NONAD")]

/-- The keys of PN532_ERRORS, for stating which codes are mapped. -/
def PN532_ERROR_CODES : List Nat := PN532_ERRORS.map Prod.fst

/-- The object state a successful PN532Error.__init__ produces
(lines 103-108): the code and the message looked up in PN532_ERRORS. -/
structure PN532ErrorObj where
  err : Nat
  errmsg : String
deriving DecidableEq, Repr

/-- PN532Error.__init__ (lines 105-108).  self.errmsg = PN532_ERRORS[err]
is a Python dict subscript: it raises KeyError when err is not a key,
modelled by none. -/
def PN532Error_mk (err : Nat) : Option PN532ErrorObj :=
  (PN532_ERRORS.lookup err).map (fun m => ⟨err, m⟩)

/-! ## Command dispatcher (PN532.call_function, lines 223-258)

The abstract transport of the driver (subclass methods _write_data,
_wait_ready, _read_data, _wakeup) is modelled by a record of the
observable behaviour of one invocation: whether the frame write raises
OSError, the two readiness poll results, and the bytes each read
delivers as a function of the requested count.  The two reads of one
invocation request different counts (6 for the ACK, response_length+9
for the result frame), so one function of the count captures both. -/

structure Transport where
  writeOk : Bool
  ready1 : Bool
  ready2 : Bool
  readData : Nat → List Nat
deriving Inhabited

/-- Outcomes of call_function.  ok and noResponse are the two returns
(payload bytes, None); the rest are the exceptions that can leave the
method: the two RuntimeError raises of call_function itself, a parse
failure propagating out of _read_frame, an IndexError from the header
subscripts response[0] and response[1], and an AssertionError from the
length assert in _write_frame. -/
inductive CallOutcome where
  | noResponse
  | ok (payload : List Nat)
  | ackMismatch
  | wrongResponse
  | frameError (e : ReadError)
  | indexErr
  | assertError
deriving DecidableEq, Repr

/-- Result of one call_function invocation together with how many wake
pulses (_wakeup calls) it performed. -/
structure CallResult where
  outcome : CallOutcome
  wakes : Nat
deriving DecidableEq, Repr

/-- PN532.call_function (lines 223-258).  Step by step:
data = [0xD4, command and 0xFF] ++ params; _write_frame asserts
1 < len(data) < 255 (AssertionError is not caught); an OSError from the
write is caught, runs one _wakeup and returns None; a failed first
readiness poll returns None; the next read of len(_ACK) bytes must equal
_ACK or RuntimeError; a failed second poll returns None; the result
frame is decoded by _read_frame on the bytes of a read sized
response_length+2+7; the header check response[0] == 0xD5 and
response[1] == command+1 short-circuits, so a 1-byte payload whose only
byte is not 0xD5 raises the RuntimeError while a 1-byte payload starting
0xD5 raises IndexError; on success the payload after the 2-byte header
is returned. -/
def call_function (t : Transport) (command : Nat) (response_length : Nat)
    (params : List Nat) : CallResult :=
  let data := [_HOSTTOPN532, command % 256] ++ params
  if 1 < data.length ∧ data.length < 255 then
    if t.writeOk then
      if t.ready1 then
        if t.readData _ACK.length = _ACK then
          if t.ready2 then
            match _read_frame (t.readData (response_length + 2 + 7)) with
            | .error e => ⟨.frameError e, 0⟩
            | .ok response =>
              match response with
              | [] => ⟨.indexErr, 0⟩
              | r0 :: rest =>
                if r0 = _PN532TOHOST then
                  match rest with
                  | [] => ⟨.indexErr, 0⟩
                  | r1 :: rest2 =>
                    if r1 = command + 1 then ⟨.ok rest2, 0⟩
                    else ⟨.wrongResponse, 0⟩
                else ⟨.wrongResponse, 0⟩
          else ⟨.noResponse, 0⟩
        else ⟨.ackMismatch, 0⟩
      else ⟨.noResponse, 0⟩
    else ⟨.noResponse, 1⟩
  else ⟨.assertError, 0⟩

/-! ## Session bootstrap (lines 118-133, 260-267) -/

/-- Python exception classes relevant to the constructor: BusyError and
RuntimeError are caught by the except clause of __init__; IndexError and
AssertionError are not. -/
inductive PyError where
  | runtimeError
  | indexError
  | assertionError
deriving DecidableEq, Repr

/-- PN532.get_firmware_version (lines 260-267): call_function with the
firmware opcode and a 4-byte result; a None response raises RuntimeError
(Failed to detect the PN532); otherwise the payload is returned.  The
other call_function outcomes are the exceptions propagating out of the
call, sorted into the Python classes __init__ distinguishes
(every RuntimeError raise of call_function and _read_frame is a
runtimeError here; the IndexError paths are indexError). -/
def get_firmware_version (t : Transport) : Except PyError (List Nat) :=
  match (call_function t _COMMAND_GETFIRMWAREVERSION 4 []).outcome with
  | .ok payload => .ok payload
  | .noResponse => .error .runtimeError
  | .ackMismatch => .error .runtimeError
  | .wrongResponse => .error .runtimeError
  | .frameError e =>
      if e = .indexError then .error .indexError else .error .runtimeError
  | .indexErr => .error .indexError
  | .assertError => .error .assertionError

/-- Outcome of PN532.__init__. -/
inductive InitOutcome where
  | ok
  | raises (e : PyError)
deriving DecidableEq, Repr

/-- PN532.__init__ firmware handshake (lines 127-133): the first
get_firmware_version attempt is inside try/except (BusyError,
RuntimeError); if it succeeds the constructor returns; if it raises one
of those two classes the constructor retries get_firmware_version
outside any handler; any other exception class propagates at once.  The
two attempts see the transport in possibly different states, so each
takes its own Transport value. -/
def PN532_init (t1 t2 : Transport) : InitOutcome :=
  match get_firmware_version t1 with
  | .ok _ => .ok
  | .error .runtimeError =>
      match get_firmware_version t2 with
      | .ok _ => .ok
      | .error e => .raises e
  | .error e => .raises e

/-! ## Device commands (lines 279-355) -/

/-- Outcomes of read_passive_target (lines 279-298). -/
inductive PTOutcome where
  | noCard
  | uid (u : List Nat)
  | moreThanOneCard
  | longUid
  | indexErr
  | dispatchErr (c : CallOutcome)
deriving DecidableEq, Repr

/-- PN532.read_passive_target (lines 279-298): call_function with the
InListPassiveTarget opcode, params [0x01, card_baud] and a 19-byte
result; None maps to None (no card); otherwise response[0] must be 0x01
(else RuntimeError, more than one card), response[5] must be at most 7
(else RuntimeError, long UID), and the UID is the slice
response[6:6+response[5]].  response[0] and response[5] are subscripts
and raise IndexError on a too-short payload; the final slice clamps.
The except BusyError handler around the call has no counterpart here
because the modelled transport signals readiness by a Bool. -/
def read_passive_target (t : Transport) (card_baud : Nat) : PTOutcome :=
  match (call_function t _COMMAND_INLISTPASSIVETARGET 19 [0x01, card_baud]).outcome with
  | .noResponse => .noCard
  | .ok response =>
    match response.get? 0 with
    | none => .indexErr
    | some b0 =>
      if b0 ≠ 0x01 then .moreThanOneCard
      else
        match response.get? 5 with
        | none => .indexErr
        | some b5 =>
          if b5 > 7 then .longUid
          else .uid ((response.drop 6).take b5)
  | c => .dispatchErr c

/-- Outcomes of the three MIFARE Classic block operations
(lines 300-355). -/
inductive MifareOutcome where
  | authOk
  | blockData (d : List Nat)
  | writeDone
  | pn532Err (code : Nat)
  | keyErr
  | noneTypeErr
  | indexErr
  | dispatchErr (c : CallOutcome)
  | assertErr
deriving DecidableEq, Repr

/-- Shared tail of the three MIFARE operations: the Python statements
response[0] and raise PN532Error(response[0]) applied to the
call_function result.  A None response makes response[0] a TypeError
(noneTypeErr); an empty payload makes it an IndexError; a non-zero
status byte constructs PN532Error, whose dict lookup is a KeyError for
an unmapped code; a zero status runs the success continuation. -/
def mifareStatusCheck (r : CallOutcome) (onSuccess : List Nat → MifareOutcome) :
    MifareOutcome :=
  match r with
  | .noResponse => .noneTypeErr
  | .ok response =>
    match response with
    | [] => .indexErr
    | r0 :: _ =>
      if r0 ≠ 0 then
        match PN532Error_mk r0 with
        | some o => .pn532Err o.err
        | none => .keyErr
      else onSuccess response
  | c => .dispatchErr c

/-- PN532.mifare_classic_authenticate_block (lines 300-321): params
[0x01, key_number and 0xFF, block_number and 0xFF] ++ key ++ uid,
InDataExchange opcode, 1-byte result; status 0 returns True. -/
def mifare_classic_authenticate_block (t : Transport) (uid : List Nat)
    (block_number key_number : Nat) (key : List Nat) : MifareOutcome :=
  let params := [0x01, key_number % 256, block_number % 256] ++ key ++ uid
  mifareStatusCheck (call_function t _COMMAND_INDATAEXCHANGE 1 params).outcome
    (fun _ => .authOk)

/-- PN532.mifare_classic_read_block (lines 323-336): params
[0x01, MIFARE_CMD_READ, block_number and 0xFF], 17-byte result; status 0
returns response[1:]. -/
def mifare_classic_read_block (t : Transport) (block_number : Nat) : MifareOutcome :=
  mifareStatusCheck
    (call_function t _COMMAND_INDATAEXCHANGE 17
      [0x01, MIFARE_CMD_READ, block_number % 256]).outcome
    (fun response => .blockData (response.drop 1))

/-- PN532.mifare_classic_write_block (lines 338-355): asserts
len(data) == 16 before any transport interaction, then params
[0x01, MIFARE_CMD_WRITE, block_number and 0xFF] ++ data, 1-byte result;
status 0 returns True. -/
def mifare_classic_write_block (t : Transport) (block_number : Nat)
    (data : List Nat) : MifareOutcome :=
  if data.length ≠ 16 then .assertErr
  else
    mifareStatusCheck
      (call_function t _COMMAND_INDATAEXCHANGE 1
        ([0x01, MIFARE_CMD_WRITE, block_number % 256] ++ data)).outcome
      (fun _ => .writeDone)

/-! ## Helper lemmas -/

/-- The preamble scan accepts the canonical two-zero preamble and start
code and hands back everything after the 0xFF marker. -/
theorem scanPreamble_marker (xs : List Nat) :
    scanPreamble (0x00 :: 0x00 :: 0xFF :: xs) = .ok xs := rfl

/-- Decoding a buffer that starts with the canonical preamble and start
code reduces to parsing the part after the marker. -/
theorem read_frame_marker (xs : List Nat) :
    _read_frame (0x00 :: 0x00 :: 0xFF :: xs) = parseAfterMarker xs := rfl

/-- The post-marker parse, unfolded on a buffer with at least the length
and length-checksum bytes present. -/
theorem parseAfterMarker_cons (a b : Nat) (rest : List Nat) :
    parseAfterMarker (a :: b :: rest)
      = if (a + b) % 256 ≠ 0 then .error .lengthChecksumError
        else if (rest.take (a + 1)).sum % 256 ≠ 0 then .error .checksumError
        else .ok (rest.take a) := rfl

/-- The encoded frame, with the length-field arithmetic carried out for
an in-range payload length. -/
theorem write_frame_eq (p : List Nat) (h1 : 0 < p.length) (h2 : p.length < 255) :
    _write_frame p
      = 0x00 :: 0x00 :: 0xFF :: p.length :: (256 - p.length)
          :: (p ++ [255 - (255 + p.sum) % 256, 0x00]) := by
  have e1 : p.length % 256 = p.length := Nat.mod_eq_of_lt (by omega)
  show 0x00 :: 0x00 :: 0xFF :: (p.length % 256) :: ((256 - p.length % 256) % 256)
      :: (p ++ [255 - (255 + p.sum) % 256, 0x00]) = _
  rw [e1]
  have e2 : (256 - p.length) % 256 = 256 - p.length := Nat.mod_eq_of_lt (by omega)
  rw [e2]

/-- The sum of the payload and the trailing checksum byte written by the
encoder vanishes modulo 256. -/
theorem sum_checksum_mod (s : Nat) : (s + (255 - (255 + s) % 256)) % 256 = 0 := by
  omega

/-- Replacing one element of a list changes the sum by the difference of
the new and old values. -/
theorem sum_set_add (l : List Nat) (j v : Nat) (h : j < l.length) :
    (l.set j v).sum + l[j] = l.sum + v := by
  induction l generalizing j with
  | nil => exact absurd h (by simp)
  | cons a t ih =>
    cases j with
    | zero => simp [List.set_cons_zero]; omega
    | succ j =>
      have ht : j < t.length := by simpa using h
      have hrec := ih j ht
      simp only [List.set_cons_succ, List.sum_cons, List.getElem_cons_succ]
      omega

/-! ## C1 -/

/-- C1: for every payload p with 1 < length p < 255, decoding the frame
produced by the encoder returns exactly p. -/
theorem C1_encode_decode_roundtrip (p : List Nat) (h1 : 1 < p.length)
    (h2 : p.length < 255) :
    _read_frame (_write_frame p) = .ok p := by
  rw [write_frame_eq p (by omega) h2, read_frame_marker, parseAfterMarker_cons]
  rw [if_neg (by omega : ¬ (p.length + (256 - p.length)) % 256 ≠ 0)]
  have htake1 : (p ++ [255 - (255 + p.sum) % 256, 0x00]).take (p.length + 1)
      = p ++ [255 - (255 + p.sum) % 256] := by
    rw [show p ++ [255 - (255 + p.sum) % 256, 0x00]
        = (p ++ [255 - (255 + p.sum) % 256]) ++ [0x00] by simp]
    exact List.take_left' (by simp)
  rw [htake1]
  rw [if_neg (by simp [List.sum_append] ; have := sum_checksum_mod p.sum ; omega)]
  rw [List.take_left' rfl]

/-- C1 witness: the round trip evaluated at the payload [1, 2, 3]. -/
theorem C1_encode_decode_roundtrip_witness :
    _read_frame (_write_frame [1, 2, 3]) = .ok [1, 2, 3] :=
  C1_encode_decode_roundtrip [1, 2, 3] (by decide) (by decide)

/-! ## C2 -/

/-- C2 counterexample: the status byte 0x08 is not a key of PN532_ERRORS,
and constructing a PN532Error from it fails (the dict subscript in
PN532Error.__init__ raises KeyError) instead of yielding an
unrecognized-status fallback variant. -/
theorem C2_counterexample : PN532Error_mk 0x08 = none := rfl

set_option maxRecDepth 16384 in
/-- C2 amended: classifying a status byte is partial, not total with a
fallback: for every byte 0-255, constructing a PN532Error succeeds
exactly when the byte is one of the 28 enumerated keys of PN532_ERRORS,
and fails with a key lookup error on every other byte. -/
theorem C2_classify_partial (b : Fin 256) :
    (PN532Error_mk b.val).isSome = true ↔ b.val ∈ PN532_ERROR_CODES := by
  revert b
  decide

/-! ## C3 -/

/-- C3 counterexample: for the payload [1, 2, 3] the encoder stores 250
as the second-to-last frame byte, while the claimed two's-complement
formula (256 - ((0x00 + 0x00 + 0xFF + sum) mod 256)) mod 256 gives 251:
the code takes the bitwise complement of the running checksum without
adding one. -/
theorem C3_counterexample :
    (_write_frame [1, 2, 3])[(_write_frame [1, 2, 3]).length - 2]? = some 250
    ∧ (256 - ((0x00 + 0x00 + 0xFF + ([1, 2, 3] : List Nat).sum) % 256)) % 256 = 251 :=
  ⟨rfl, rfl⟩

/-- C3 amended: the checksum byte placed second-to-last by the encoder is
the one's-complement low byte of (sum of the three framing-prefix bytes
plus the payload bytes), i.e. 255 - ((0x00 + 0x00 + 0xFF + sum p) mod
256), which equals the two's-complement low byte of the payload sum
alone. -/
theorem C3_checksum_byte (p : List Nat) (h1 : 1 < p.length) (h2 : p.length < 255) :
    (_write_frame p)[p.length + 5]?
        = some (255 - ((0x00 + 0x00 + 0xFF + p.sum) % 256))
    ∧ 255 - ((0x00 + 0x00 + 0xFF + p.sum) % 256) = (256 - p.sum % 256) % 256 := by
  constructor
  · rw [write_frame_eq p (by omega) h2]
    have h5 : (0x00 :: 0x00 :: 0xFF :: p.length :: (256 - p.length)
        :: (p ++ [255 - (255 + p.sum) % 256, 0x00]))[p.length + 5]?
        = (p ++ [255 - (255 + p.sum) % 256, 0x00])[p.length]? := by
      simp only [List.getElem?_cons_succ]
    rw [h5, List.getElem?_append_right (Nat.le_refl _), Nat.sub_self]
    norm_num
  · omega

/-- C3 amended witness: the checksum byte of the frame for [1, 2, 3]. -/
theorem C3_checksum_byte_witness :
    (_write_frame [1, 2, 3])[List.length [1, 2, 3] + 5]?
        = some (255 - ((0x00 + 0x00 + 0xFF + ([1, 2, 3] : List Nat).sum) % 256)) :=
  (C3_checksum_byte [1, 2, 3] (by decide) (by decide)).1

/-! ## C4 -/

/-- The initial subscript of the preamble scan is its only out-of-range
access: on a non-empty buffer the scan never produces indexError. -/
theorem scanPreamble_ne_indexError (bs : List Nat) (h : bs ≠ []) :
    scanPreamble bs ≠ .error .indexError := by
  induction bs with
  | nil => exact absurd rfl h
  | cons b rest ih =>
    unfold scanPreamble
    by_cases hb : b = 0x00
    · rw [if_pos hb]
      cases rest with
      | nil => simp
      | cons c cs => exact ih (by simp)
    · rw [if_neg hb]
      by_cases hf : b = 0xFF
      · rw [if_pos hf]
        simp
      · rw [if_neg hf]
        simp

/-- The preamble scan succeeds with remainder r exactly when the buffer
is a run of zero bytes, then the 0xFF marker, then r. -/
theorem scanPreamble_ok_iff (bs r : List Nat) :
    scanPreamble bs = .ok r
      ↔ ∃ zs, bs = zs ++ 0xFF :: r ∧ ∀ z ∈ zs, z = 0x00 := by
  induction bs with
  | nil =>
    simp only [scanPreamble]
    constructor
    · intro h
      exact absurd h (by simp)
    · rintro ⟨zs, heq, -⟩
      exact absurd heq.symm (by simp)
  | cons b rest ih =>
    unfold scanPreamble
    by_cases hb : b = 0x00
    · rw [if_pos hb]
      cases rest with
      | nil =>
        constructor
        · intro h
          exact absurd h (by simp)
        · rintro ⟨zs, heq, hz⟩
          cases zs with
          | nil =>
            rw [List.nil_append] at heq
            injection heq with h1 h2
            omega
          | cons z zs =>
            rw [List.cons_append] at heq
            injection heq with h1 h2
            exact absurd h2.symm (by simp)
      | cons c cs =>
        rw [ih]
        constructor
        · rintro ⟨zs, heq, hz⟩
          refine ⟨b :: zs, ?_, ?_⟩
          · rw [List.cons_append, heq]
          · intro z hzmem
            rcases List.mem_cons.mp hzmem with h | h
            · rw [h, hb]
            · exact hz z h
        · rintro ⟨zs, heq, hz⟩
          cases zs with
          | nil =>
            rw [List.nil_append] at heq
            injection heq with h1 h2
            omega
          | cons z zs =>
            rw [List.cons_append] at heq
            injection heq with h1 h2
            exact ⟨zs, h2, fun x hx => hz x (List.mem_cons_of_mem z hx)⟩
    · rw [if_neg hb]
      by_cases hf : b = 0xFF
      · rw [if_pos hf]
        constructor
        · intro h
          refine ⟨[], ?_, by simp⟩
          injection h with h1
          rw [List.nil_append, hf, h1]
        · rintro ⟨zs, heq, hz⟩
          cases zs with
          | nil =>
            rw [List.nil_append] at heq
            injection heq with h1 h2
            rw [h2]
          | cons z zs =>
            rw [List.cons_append] at heq
            injection heq with h1 h2
            exact absurd (hz b (h1 ▸ List.mem_cons_self z zs)) hb
      · rw [if_neg hf]
        constructor
        · intro h
          exact absurd h (by simp)
        · rintro ⟨zs, heq, hz⟩
          cases zs with
          | nil =>
            rw [List.nil_append] at heq
            injection heq with h1 h2
            exact absurd h1 hf
          | cons z zs =>
            rw [List.cons_append] at heq
            injection heq with h1 h2
            exact absurd (hz b (h1 ▸ List.mem_cons_self z zs)) hb

/-- The post-marker parse hits its out-of-range access (the subscript
response[offset+1]) exactly when a single byte follows the marker. -/
theorem parseAfterMarker_indexError_iff (r : List Nat) :
    parseAfterMarker r = .error .indexError ↔ ∃ n, r = [n] := by
  match r with
  | [] => simp [parseAfterMarker]
  | [n] => simp [parseAfterMarker]
  | a :: b :: rest =>
    rw [parseAfterMarker_cons]
    constructor
    · intro h
      split at h
      · exact absurd h (by simp)
      · split at h
        · exact absurd h (by simp)
        · exact absurd h (by simp)
    · rintro ⟨n, heq⟩
      exact absurd heq (by simp)

/-- C4 counterexample: the claim promises no out-of-range access and only
three structured failures, but decoding the empty buffer performs the
out-of-range subscript response[0] (Python IndexError), decoding
[0xFF, 0x03] performs the out-of-range subscript response[offset+1], and
decoding [0xFF] fails with the fourth structured failure (Response
contains no data), which is none of the three listed kinds. -/
theorem C4_counterexample :
    _read_frame [] = .error .indexError
    ∧ _read_frame [0xFF, 0x03] = .error .indexError
    ∧ _read_frame [0xFF] = .error .noDataError :=
  ⟨rfl, rfl, rfl⟩

/-- C4 amended: decoding an arbitrary buffer returns a payload or fails
with one of four structured parse failures (malformed preamble, no data
after the marker, length-checksum mismatch, payload-checksum mismatch),
except that it performs an out-of-range index access exactly when the
buffer is empty or consists of leading zero bytes, the 0xFF marker, and
exactly one further byte. -/
theorem C4_decode_indexError_iff (bs : List Nat) :
    _read_frame bs = .error .indexError
      ↔ bs = [] ∨ ∃ zs n, bs = zs ++ [0xFF, n] ∧ ∀ z ∈ zs, z = 0x00 := by
  unfold _read_frame
  cases hsc : scanPreamble bs with
  | error e =>
    constructor
    · intro h
      injection h with h1
      rw [h1] at hsc
      left
      by_contra hne
      exact scanPreamble_ne_indexError bs hne hsc
    · rintro (h | ⟨zs, n, heq, hz⟩)
      · rw [h] at hsc
        injection hsc with h1
        rw [← h1]
      · have : scanPreamble bs = .ok [n] :=
          (scanPreamble_ok_iff bs [n]).mpr ⟨zs, heq, hz⟩
        rw [this] at hsc
        exact absurd hsc (by simp)
  | ok rest =>
    have hne : bs ≠ [] := by
      intro h
      rw [h] at hsc
      exact absurd hsc (by simp [scanPreamble])
    rw [parseAfterMarker_indexError_iff]
    constructor
    · rintro ⟨n, hrest⟩
      right
      rw [hrest] at hsc
      obtain ⟨zs, heq, hz⟩ := (scanPreamble_ok_iff bs [n]).mp hsc
      exact ⟨zs, n, heq, hz⟩
    · rintro (h | ⟨zs, n, heq, hz⟩)
      · exact absurd h hne
      · have : scanPreamble bs = .ok [n] :=
          (scanPreamble_ok_iff bs [n]).mpr ⟨zs, heq, hz⟩
        rw [this] at hsc
        injection hsc with h1
        exact ⟨n, h1.symm⟩

/-! ## C5 -/

/-- C5 counterexample: the postamble byte is outside the leading preamble
padding, yet flipping it is not detected at all: the frame for [1, 2, 3]
is [0, 0, 255, 3, 253, 1, 2, 3, 250, 0], and changing its final byte
(position 9, the postamble) from 0x00 to 0x01 still decodes successfully
to [1, 2, 3] instead of failing with a checksum mismatch.  (Flipping the
0xFF start marker at position 2 fails with the malformed-preamble kind
instead, another non-checksum outcome.) -/
theorem C5_counterexample :
    _read_frame ((_write_frame [1, 2, 3]).set 9 0x01) = .ok [1, 2, 3]
    ∧ _read_frame ((_write_frame [1, 2, 3]).set 2 0x01) = .error .preambleError :=
  ⟨rfl, rfl⟩

/-- C5 amended: for every valid encoded frame, changing any single byte
among the length byte, the length-checksum byte, the payload bytes and
the checksum byte (positions 3 through length+5) to any different byte
value causes decoding of the modified buffer to fail with a
checksum-mismatch kind of failure (length-checksum mismatch or payload
checksum mismatch); flipping the 0xFF start marker or the trailing
postamble does not produce a checksum-mismatch failure. -/
theorem C5_flip_checksummed_region (p : List Nat) (i v b : Nat)
    (h1 : 1 < p.length) (h2 : p.length < 255)
    (hbytes : ∀ x ∈ p, x < 256)
    (hi3 : 3 ≤ i) (hi5 : i ≤ p.length + 5)
    (hb : (_write_frame p)[i]? = some b)
    (hv : v < 256) (hne : v ≠ b) :
    _read_frame ((_write_frame p).set i v) = .error .lengthChecksumError
    ∨ _read_frame ((_write_frame p).set i v) = .error .checksumError := by
  have hfr := write_frame_eq p (by omega) h2
  rw [hfr] at hb ⊢
  set cs := 255 - (255 + p.sum) % 256 with hcs_def
  have hcs : cs < 256 := by omega
  have hsum : (p.sum + cs) % 256 = 0 := sum_checksum_mod p.sum
  have hcases : i = 3 ∨ i = 4 ∨ (∃ j, j < p.length ∧ i = j + 5) ∨ i = p.length + 5 := by
    by_cases h3 : i = 3
    · exact Or.inl h3
    by_cases h4 : i = 4
    · exact Or.inr (Or.inl h4)
    by_cases h5 : i = p.length + 5
    · exact Or.inr (Or.inr (Or.inr h5))
    · exact Or.inr (Or.inr (Or.inl ⟨i - 5, by omega, by omega⟩))
  rcases hcases with hc | hc | ⟨j, hj, hc⟩ | hc
  · subst hc
    have hb3 : p.length = b := by
      simp only [List.getElem?_cons_succ, List.getElem?_cons_zero,
        Option.some.injEq] at hb
      exact hb
    have hset : (0x00 :: 0x00 :: 0xFF :: p.length :: (256 - p.length)
          :: (p ++ [cs, 0x00])).set 3 v
        = 0x00 :: 0x00 :: 0xFF :: v :: (256 - p.length) :: (p ++ [cs, 0x00]) := rfl
    rw [hset, read_frame_marker, parseAfterMarker_cons]
    left
    rw [if_pos (by omega : (v + (256 - p.length)) % 256 ≠ 0)]
  · subst hc
    have hb4 : 256 - p.length = b := by
      simp only [List.getElem?_cons_succ, List.getElem?_cons_zero,
        Option.some.injEq] at hb
      exact hb
    have hset : (0x00 :: 0x00 :: 0xFF :: p.length :: (256 - p.length)
          :: (p ++ [cs, 0x00])).set 4 v
        = 0x00 :: 0x00 :: 0xFF :: p.length :: v :: (p ++ [cs, 0x00]) := rfl
    rw [hset, read_frame_marker, parseAfterMarker_cons]
    left
    rw [if_pos (by omega : (p.length + v) % 256 ≠ 0)]
  · subst hc
    have hbj : p[j]? = some b := by
      simp only [List.getElem?_cons_succ] at hb
      rwa [List.getElem?_append_left hj] at hb
    have hbval : p[j] = b := by
      rw [List.getElem?_eq_getElem hj] at hbj
      exact Option.some.inj hbj
    have hblt : b < 256 := hbval ▸ hbytes _ (List.getElem_mem hj)
    have hset : (0x00 :: 0x00 :: 0xFF :: p.length :: (256 - p.length)
          :: (p ++ [cs, 0x00])).set (j + 5) v
        = 0x00 :: 0x00 :: 0xFF :: p.length :: (256 - p.length)
          :: ((p.set j v) ++ [cs, 0x00]) := by
      show 0x00 :: 0x00 :: 0xFF :: p.length :: (256 - p.length)
          :: ((p ++ [cs, 0x00]).set j v) = _
      rw [List.set_append, if_pos hj]
    rw [hset, read_frame_marker, parseAfterMarker_cons]
    right
    rw [if_neg (by omega : ¬ (p.length + (256 - p.length)) % 256 ≠ 0)]
    have htake : ((p.set j v) ++ [cs, 0x00]).take (p.length + 1)
        = (p.set j v) ++ [cs] := by
      rw [show (p.set j v) ++ [cs, 0x00] = ((p.set j v) ++ [cs]) ++ [0x00] by simp]
      exact List.take_left' (by simp)
    rw [htake]
    have hss := sum_set_add p j v hj
    rw [hbval] at hss
    have hcond : ((p.set j v) ++ [cs]).sum % 256 ≠ 0 := by
      rw [List.sum_append]
      simp only [List.sum_cons, List.sum_nil]
      omega
    rw [if_pos hcond]
  · subst hc
    have hbcs : cs = b := by
      simp only [List.getElem?_cons_succ] at hb
      rw [List.getElem?_append_right (Nat.le_refl _), Nat.sub_self] at hb
      simp only [List.getElem?_cons_zero, Option.some.injEq] at hb
      exact hb
    have hset : (0x00 :: 0x00 :: 0xFF :: p.length :: (256 - p.length)
          :: (p ++ [cs, 0x00])).set (p.length + 5) v
        = 0x00 :: 0x00 :: 0xFF :: p.length :: (256 - p.length)
          :: (p ++ [v, 0x00]) := by
      show 0x00 :: 0x00 :: 0xFF :: p.length :: (256 - p.length)
          :: ((p ++ [cs, 0x00]).set p.length v) = _
      rw [List.set_append, if_neg (by omega), Nat.sub_self]
      rfl
    rw [hset, read_frame_marker, parseAfterMarker_cons]
    right
    rw [if_neg (by omega : ¬ (p.length + (256 - p.length)) % 256 ≠ 0)]
    have htake : (p ++ [v, 0x00]).take (p.length + 1) = p ++ [v] := by
      rw [show p ++ [v, 0x00] = (p ++ [v]) ++ [0x00] by simp]
      exact List.take_left' (by simp)
    rw [htake]
    have hcond : (p ++ [v]).sum % 256 ≠ 0 := by
      rw [List.sum_append]
      simp only [List.sum_cons, List.sum_nil]
      omega
    rw [if_pos hcond]

/-- C5 amended witness: flipping the first payload byte (position 5) of
the frame for [1, 2, 3] from 1 to 9. -/
theorem C5_flip_checksummed_region_witness :
    _read_frame ((_write_frame [1, 2, 3]).set 5 9) = .error .lengthChecksumError
    ∨ _read_frame ((_write_frame [1, 2, 3]).set 5 9) = .error .checksumError :=
  C5_flip_checksummed_region [1, 2, 3] 5 9 1 (by decide) (by decide) (by decide)
    (by decide) (by decide) rfl (by decide) (by decide)

/-! ## C6 -/

/-- C6: after a successful frame write and readiness poll, the dispatcher
reads exactly as many bytes as the 6-byte ACK literal
0x00 0x00 0xFF 0x00 0xFF 0x00 and compares byte-for-byte; any mismatch
yields the protocol-fatal ackMismatch outcome (the RuntimeError raise),
which is distinct from the noResponse outcome (None) produced when a
readiness poll times out. -/
theorem C6_ack_check (t : Transport) (command response_length : Nat)
    (params : List Nat) (hp : params.length < 253) (hw : t.writeOk = true) :
    (t.ready1 = true → t.readData _ACK.length ≠ _ACK →
        (call_function t command response_length params).outcome = .ackMismatch)
    ∧ (t.ready1 = false →
        (call_function t command response_length params).outcome = .noResponse)
    ∧ _ACK.length = 6
    ∧ _ACK = [0x00, 0x00, 0xFF, 0x00, 0xFF, 0x00]
    ∧ CallOutcome.ackMismatch ≠ CallOutcome.noResponse := by
  have hlen : (1:Nat) < ([_HOSTTOPN532, command % 256] ++ params).length
      ∧ ([_HOSTTOPN532, command % 256] ++ params).length < 255 := by
    simp only [List.length_append, List.length_cons, List.length_nil]
    omega
  refine ⟨?_, ?_, rfl, rfl, by simp⟩
  · intro hr1 hack
    simp only [call_function]
    rw [if_pos hlen, if_pos hw, if_pos hr1, if_neg hack]
  · intro hr1
    simp only [call_function]
    rw [if_pos hlen, if_pos hw, if_neg (by simp [hr1])]

/-- C6 witness: a transport whose ACK read returns an empty buffer. -/
theorem C6_ack_check_witness :
    (call_function ⟨true, true, true, fun _ => []⟩ 0x02 4 []).outcome
      = CallOutcome.ackMismatch :=
  (C6_ack_check ⟨true, true, true, fun _ => []⟩ 0x02 4 [] (by decide) rfl).1 rfl
    (by decide)

/-! ## C7 -/

/-- C7: if writing the outgoing frame raises a transient transport
failure (OSError), the dispatcher performs exactly one wake pulse and
returns None (noResponse), raising nothing; and on every other path of
the invocation the number of wake pulses is zero, so the wake-and-return
path is the sole automatic recovery anywhere in the invocation. -/
theorem C7_write_failure_single_wake (t : Transport) (command response_length : Nat)
    (params : List Nat) (hp : params.length < 253) :
    (t.writeOk = false →
        call_function t command response_length params
          = ⟨CallOutcome.noResponse, 1⟩)
    ∧ (call_function t command response_length params).wakes
        = (if t.writeOk then 0 else 1) := by
  have hlen : (1:Nat) < ([_HOSTTOPN532, command % 256] ++ params).length
      ∧ ([_HOSTTOPN532, command % 256] ++ params).length < 255 := by
    simp only [List.length_append, List.length_cons, List.length_nil]
    omega
  constructor
  · intro hw
    simp only [call_function]
    rw [if_pos hlen, if_neg (by simp [hw])]
  · cases hwk : t.writeOk with
    | false =>
      simp only [call_function]
      rw [if_pos hlen, if_neg (by simp [hwk])]
      rfl
    | true =>
      simp only [call_function]
      rw [if_pos hlen, if_pos hwk]
      show _ = 0
      repeat first | rfl | split

/-- C7 witness: a transport whose write fails; the result is None with
exactly one wake pulse. -/
theorem C7_write_failure_single_wake_witness :
    call_function ⟨false, true, true, fun _ => []⟩ 0x02 4 []
      = ⟨CallOutcome.noResponse, 1⟩ :=
  (C7_write_failure_single_wake ⟨false, true, true, fun _ => []⟩ 0x02 4 []
    (by decide)).1 rfl

/-! ## C8 -/

/-- C8: read_passive_target returns None (no card) whenever the
dispatcher reports no response; when a response payload arrives it fails
fatally when byte 0 is not exactly 1 (more than one card RuntimeError),
fails fatally when byte 0 is 1 and byte 5 exceeds 7 (long UID
RuntimeError), and otherwise returns bytes 6..6+byte5 of the response as
the UID. -/
theorem C8_read_passive_target_spec (t : Transport) (card_baud : Nat) :
    ((call_function t _COMMAND_INLISTPASSIVETARGET 19 [0x01, card_baud]).outcome
        = .noResponse → read_passive_target t card_baud = .noCard)
    ∧ (∀ resp b0,
        (call_function t _COMMAND_INLISTPASSIVETARGET 19 [0x01, card_baud]).outcome
          = .ok resp → resp.get? 0 = some b0 → b0 ≠ 0x01 →
        read_passive_target t card_baud = .moreThanOneCard)
    ∧ (∀ resp b5,
        (call_function t _COMMAND_INLISTPASSIVETARGET 19 [0x01, card_baud]).outcome
          = .ok resp → resp.get? 0 = some 0x01 → resp.get? 5 = some b5 → 7 < b5 →
        read_passive_target t card_baud = .longUid)
    ∧ (∀ resp b5,
        (call_function t _COMMAND_INLISTPASSIVETARGET 19 [0x01, card_baud]).outcome
          = .ok resp → resp.get? 0 = some 0x01 → resp.get? 5 = some b5 → b5 ≤ 7 →
        read_passive_target t card_baud = .uid ((resp.drop 6).take b5)) := by
  refine ⟨?_, ?_, ?_, ?_⟩
  · intro hnr
    unfold read_passive_target
    rw [hnr]
  · intro resp b0 hok hg0 hb0
    unfold read_passive_target
    rw [hok]
    show (match resp.get? 0 with
      | none => PTOutcome.indexErr
      | some b0 => _) = _
    rw [hg0]
    show (if b0 ≠ 0x01 then PTOutcome.moreThanOneCard else _) = _
    rw [if_pos hb0]
  · intro resp b5 hok hg0 hg5 h7
    unfold read_passive_target
    rw [hok]
    show (match resp.get? 0 with
      | none => PTOutcome.indexErr
      | some b0 => _) = _
    rw [hg0]
    show (if (0x01:Nat) ≠ 0x01 then PTOutcome.moreThanOneCard else _) = _
    rw [if_neg (by simp)]
    show (match resp.get? 5 with
      | none => PTOutcome.indexErr
      | some b5 => _) = _
    rw [hg5]
    show (if b5 > 7 then PTOutcome.longUid else _) = _
    rw [if_pos h7]
  · intro resp b5 hok hg0 hg5 h7
    unfold read_passive_target
    rw [hok]
    show (match resp.get? 0 with
      | none => PTOutcome.indexErr
      | some b0 => _) = _
    rw [hg0]
    show (if (0x01:Nat) ≠ 0x01 then PTOutcome.moreThanOneCard else _) = _
    rw [if_neg (by simp)]
    show (match resp.get? 5 with
      | none => PTOutcome.indexErr
      | some b5 => _) = _
    rw [hg5]
    show (if b5 > 7 then PTOutcome.longUid else _) = _
    rw [if_neg (by omega)]

/-- C8 witness: an end-to-end run against a synthetic transport whose
result frame encodes one detected card with a 4-byte UID. -/
theorem C8_read_passive_target_spec_witness :
    read_passive_target
      ⟨true, true, true, fun n => if n = 6 then _ACK
          else _write_frame [0xD5, 0x4B, 0x01, 0x00, 0x00, 0x00, 0x00, 4, 9, 8, 7, 6]⟩
      _MIFARE_ISO14443A
    = .uid [9, 8, 7, 6] :=
  (C8_read_passive_target_spec
      ⟨true, true, true, fun n => if n = 6 then _ACK
          else _write_frame [0xD5, 0x4B, 0x01, 0x00, 0x00, 0x00, 0x00, 4, 9, 8, 7, 6]⟩
      _MIFARE_ISO14443A).2.2.2
    [0x01, 0x00, 0x00, 0x00, 0x00, 4, 9, 8, 7, 6] 4 rfl rfl rfl (by decide)

/-! ## C9 -/

/-- C9: when the first GetFirmwareVersion attempt of the constructor
fails with one of the swallowed classes (BusyError or RuntimeError, which
cover busy and protocol-fatal conditions), construction succeeds exactly
when the second, untolerated attempt succeeds, and it fails with exactly
the error of the second attempt when that attempt also fails. -/
theorem C9_bootstrap_retry (t1 t2 : Transport)
    (h : get_firmware_version t1 = .error .runtimeError) :
    (PN532_init t1 t2 = .ok ↔ ∃ v, get_firmware_version t2 = Except.ok v)
    ∧ (∀ e, PN532_init t1 t2 = .raises e
        ↔ get_firmware_version t2 = .error e) := by
  unfold PN532_init
  rw [h]
  cases hf : get_firmware_version t2 with
  | ok v =>
    constructor
    · simp
    · intro e
      simp
  | error e =>
    constructor
    · simp
    · intro e1
      constructor
      · intro he
        injection he with h1
        rw [h1]
      · intro he
        injection he with h1
        rw [h1]

/-- C9 witness: a first transport that times out on the readiness poll
(a swallowed RuntimeError) followed by a second transport that answers
the firmware query; construction succeeds. -/
theorem C9_bootstrap_retry_witness :
    PN532_init ⟨true, false, true, fun _ => []⟩
      ⟨true, true, true, fun n => if n = 6 then _ACK
          else _write_frame [0xD5, 0x03, 0x32, 0x01, 0x06, 0x07]⟩ = .ok :=
  (C9_bootstrap_retry ⟨true, false, true, fun _ => []⟩
      ⟨true, true, true, fun n => if n = 6 then _ACK
          else _write_frame [0xD5, 0x03, 0x32, 0x01, 0x06, 0x07]⟩ rfl).1.mpr
    ⟨[0x32, 0x01, 0x06, 0x07], rfl⟩

/-! ## C10 -/

/-- C10: when the dispatcher returns None (no response), each of the
three MIFARE block operations evaluates response[0] on None and dies
with the unstructured TypeError (NoneType is not subscriptable) instead
of returning a structured outcome: none of them handles a dispatcher
timeout at its interface. -/
theorem C10_mifare_none_indexing (t : Transport) (uid key data : List Nat)
    (block_number key_number : Nat) (hd : data.length = 16)
    (h1 : (call_function t _COMMAND_INDATAEXCHANGE 1
        ([0x01, key_number % 256, block_number % 256] ++ key ++ uid)).outcome
        = .noResponse)
    (h2 : (call_function t _COMMAND_INDATAEXCHANGE 17
        [0x01, MIFARE_CMD_READ, block_number % 256]).outcome = .noResponse)
    (h3 : (call_function t _COMMAND_INDATAEXCHANGE 1
        ([0x01, MIFARE_CMD_WRITE, block_number % 256] ++ data)).outcome
        = .noResponse) :
    mifare_classic_authenticate_block t uid block_number key_number key = .noneTypeErr
    ∧ mifare_classic_read_block t block_number = .noneTypeErr
    ∧ mifare_classic_write_block t block_number data = .noneTypeErr := by
  refine ⟨?_, ?_, ?_⟩
  · simp only [mifare_classic_authenticate_block]
    rw [h1]
    rfl
  · unfold mifare_classic_read_block
    rw [h2]
    rfl
  · unfold mifare_classic_write_block
    rw [if_neg (by omega), h3]
    rfl

/-- C10 witness: a transport whose frame write fails, so every dispatch
returns None; all three operations hit the TypeError outcome. -/
theorem C10_mifare_none_indexing_witness :
    mifare_classic_authenticate_block ⟨false, true, true, fun _ => []⟩
        [1, 2, 3, 4] 4 0x60 [0xFF, 0xFF, 0xFF, 0xFF, 0xFF, 0xFF] = .noneTypeErr
    ∧ mifare_classic_read_block ⟨false, true, true, fun _ => []⟩ 4 = .noneTypeErr
    ∧ mifare_classic_write_block ⟨false, true, true, fun _ => []⟩ 4
        (List.replicate 16 0) = .noneTypeErr :=
  C10_mifare_none_indexing ⟨false, true, true, fun _ => []⟩ [1, 2, 3, 4]
    [0xFF, 0xFF, 0xFF, 0xFF, 0xFF, 0xFF] (List.replicate 16 0) 4 0x60
    (by decide) rfl rfl rfl

end PN532
